import Mathlib

/-!
Verification development for the Blood-Plasma-Donation-Emergency-Finder
backend. The definitions below are a shallow embedding of the JavaScript
source: Mongoose documents become Lean structures, schema enums become
inductive types or string lists, and route handlers become pure functions
that return an optional domain error together with the resulting persisted
state. Timestamps are modelled as integer epoch milliseconds; the JS
float divisions that only feed threshold comparisons are modelled by the
equivalent millisecond comparisons.
-/

namespace BloodFinder

/-! ### Schema enums (models/User.js, models/EmergencyRequest.js, models/DonationHistory.js) -/

/-- Blood groups, from the schema enum [A+, A-, B+, B-, AB+, AB-, O+, O-]. -/
inductive BloodGroup
  | Ap | An | Bp | Bn | ABp | ABn | Op | On
deriving DecidableEq, Repr

/-- Urgency levels, from the schema enum [low, medium, high, critical]. -/
inductive UrgencyLevel
  | low | medium | high | critical
deriving DecidableEq, Repr

/-- User roles, from the schema enum [donor, recipient, admin]. -/
inductive Role
  | donor | recipient | admin
deriving DecidableEq, Repr

/-- User account status, from the schema enum [pending, approved, rejected, suspended]
(models/User.js lines 38-42). -/
inductive UserStatus
  | pending | approved | rejected | suspended
deriving DecidableEq, Repr

/-- Donor response types, from the responses.responseType schema enum
(models/EmergencyRequest.js lines 127-131). -/
inductive ResponseType
  | interested | confirmed | completed | cancelled
deriving DecidableEq, Repr

/-- Milliseconds per hour, the 1000*60*60 divisor used by the scorers. -/
def msPerHour : Int := 1000 * 60 * 60

/-- Milliseconds per day, the 24*60*60*1000 divisor used by canDonate. -/
def msPerDay : Int := 24 * 60 * 60 * 1000

/-! ### User documents (models/User.js) -/

/-- A persisted User document, restricted to the fields the verified
operations read. Timestamps are epoch milliseconds. The field
adminIsApproved models the document path admin.isApproved that several
routes query: the userSchema declares no admin path, and Mongoose strict
mode (the default) drops writes to undeclared paths, so on every document
persisted through the schema this path is absent (modelled as none); it is
kept as an Option field so the routes that read it can be embedded
faithfully. -/
structure User where
  /-- role (enum donor | recipient | admin, default donor) -/
  role : Role
  /-- status (enum pending | approved | rejected | suspended, default pending) -/
  status : UserStatus
  /-- address.city -/
  city : String
  /-- medicalInfo.bloodGroup (required only for donors, hence optional) -/
  bloodGroup : Option BloodGroup
  /-- medicalInfo.lastDonationDate (optional), epoch ms -/
  lastDonationDate : Option Int
  /-- availability.isAvailable (default true) -/
  isAvailable : Bool
  /-- the admin.isApproved path, absent (none) on every schema-conformant document -/
  adminIsApproved : Option Bool
deriving DecidableEq, Repr

/-- userSchema.methods.canDonate (models/User.js lines 218-229): false unless
role is donor and availability.isAvailable; when a last donation date exists,
eligible iff the floored number of days since it is at least 56. -/
def canDonate (u : User) (now : Int) : Bool :=
  if u.role ≠ Role.donor || !u.isAvailable then false
  else
    match u.lastDonationDate with
    | some last => decide (Int.fdiv (now - last) msPerDay ≥ 56)
    | none => true

/-! ### Priority scoring -/

/-- The urgency base scores of the pre-save hook
(models/EmergencyRequest.js line 258): critical 40, high 30, medium 20, low 10. -/
def urgencyScore : UrgencyLevel → Nat
  | .critical => 40
  | .high => 30
  | .medium => 20
  | .low => 10

/-- Time-sensitivity bonus of the pre-save hook (lines 262-265).
The JS code compares hoursRemaining = (requiredBy - now) / 3600000 against
6, 24 and 72; this is modelled by the equivalent millisecond comparisons. -/
def timeScore (requiredBy now : Int) : Nat :=
  if requiredBy - now ≤ 6 * msPerHour then 30
  else if requiredBy - now ≤ 24 * msPerHour then 20
  else if requiredBy - now ≤ 72 * msPerHour then 10
  else 0

/-- Units-required bonus of the pre-save hook (lines 268-269). -/
def unitsScore (units : Nat) : Nat :=
  if units ≥ 5 then 20
  else if units ≥ 3 then 10
  else 0

/-- Rare blood groups per the pre-save hook (line 272): [AB-, AB+, B-, A-, O-]. -/
def rareGroupsRequest : List BloodGroup := [.ABn, .ABp, .Bn, .An, .On]

/-- Rarity bonus of the pre-save hook (lines 272-273). -/
def rarityScore (bg : BloodGroup) : Nat :=
  if bg ∈ rareGroupsRequest then 10 else 0

/-- The priority score assigned by emergencyRequestSchema.pre(save)
(models/EmergencyRequest.js lines 252-278) on creation or urgency change:
the sum of the four components, clamped by Math.min to 100. -/
def presavePriorityScore (u : UrgencyLevel) (requiredBy now : Int)
    (units : Nat) (bg : BloodGroup) : Nat :=
  min (urgencyScore u + timeScore requiredBy now + unitsScore units + rarityScore bg) 100

/-- Urgency base scores of the route helper calculatePriorityScore
(routes/recipient.js line 244): critical 100, high 75, medium 50, low 25. -/
def routeUrgencyBase : UrgencyLevel → Nat
  | .critical => 100
  | .high => 75
  | .medium => 50
  | .low => 25

/-- Time bonus of the route helper (routes/recipient.js lines 248-254),
modelled in milliseconds as for timeScore. -/
def routeTimeScore (requiredBy now : Int) : Nat :=
  if requiredBy - now ≤ 2 * msPerHour then 50
  else if requiredBy - now ≤ 6 * msPerHour then 30
  else if requiredBy - now ≤ 24 * msPerHour then 15
  else if requiredBy - now ≤ 72 * msPerHour then 5
  else 0

/-- calculatePriorityScore (routes/recipient.js lines 243-257): urgency base
plus time bonus, clamped by Math.min to 150. -/
def calculatePriorityScore (u : UrgencyLevel) (requiredBy now : Int) : Nat :=
  min (routeUrgencyBase u + routeTimeScore requiredBy now) 150

/-- The rank of an urgency level in the order low < medium < high < critical. -/
def urgencyRank : UrgencyLevel → Nat
  | .low => 0
  | .medium => 1
  | .high => 2
  | .critical => 3

/-! ### Donor responses and the emergency request document -/

/-- One entry of the embedded responses array of an emergency request
(models/EmergencyRequest.js lines 121-143). Object ids are modelled as
strings, matching the toString comparisons in the source. -/
structure DonorResponse where
  donor : String
  responseType : ResponseType
  responseDate : Int
  scheduledTime : Option Int
  notes : Option String
  verificationCode : String
deriving DecidableEq, Repr

/-- The in-place update of the first response entry of the given donor,
as performed by addDonorResponse when find returns an existing entry
(models/EmergencyRequest.js lines 295-299): responseType and responseDate
are overwritten, scheduledTime and notes only when the new values are
truthy (modelled as some). -/
def updateExistingResponse (rs : List DonorResponse) (donorId : String)
    (ty : ResponseType) (now : Int) (sched : Option Int) (notes : Option String) :
    List DonorResponse :=
  match rs with
  | [] => []
  | r :: rest =>
      if r.donor == donorId then
        { r with
          responseType := ty
          responseDate := now
          scheduledTime := match sched with | some s => some s | none => r.scheduledTime
          notes := match notes with | some n => some n | none => r.notes } :: rest
      else
        r :: updateExistingResponse rest donorId ty now sched notes

/-- emergencyRequestSchema.methods.addDonorResponse
(models/EmergencyRequest.js lines 291-312): upsert keyed by donor id.
If a response of this donor exists it is updated in place, otherwise a new
entry is pushed (code stands for the randomly generated verification code). -/
def addDonorResponse (rs : List DonorResponse) (donorId : String)
    (ty : ResponseType) (now : Int) (sched : Option Int) (notes : Option String)
    (code : String) : List DonorResponse :=
  if rs.any (fun r => r.donor == donorId) then
    updateExistingResponse rs donorId ty now sched notes
  else
    rs ++ [{ donor := donorId, responseType := ty, responseDate := now,
             scheduledTime := sched, notes := notes, verificationCode := code }]

/-- The number of response entries of a given donor in a responses array. -/
def countDonorResponses (rs : List DonorResponse) (donorId : String) : Nat :=
  rs.countP (fun r => r.donor == donorId)

/-- The persisted status values admitted by the emergencyRequestSchema enum
(models/EmergencyRequest.js lines 113-118). -/
def requestStatusEnum : List String :=
  ["active", "partially_fulfilled", "fulfilled", "expired", "cancelled"]

/-- A persisted EmergencyRequest document, restricted to the fields the
verified operations read. The status field is kept as a string because the
recipient status route writes values outside the schema enum; the schema
constraint is enforced by the modelled save validation. expiresAt defaults
in the schema to creation time plus 30 days. -/
structure EmergencyRequestDoc where
  /-- status (schema enum requestStatusEnum, default active) -/
  status : String
  /-- patient.bloodGroup -/
  patientBloodGroup : BloodGroup
  /-- hospital.address.city -/
  hospitalCity : String
  /-- medical.urgencyLevel -/
  urgencyLevel : UrgencyLevel
  /-- medical.unitsRequired -/
  unitsRequired : Nat
  /-- medical.requiredBy, epoch ms -/
  requiredBy : Int
  /-- expiresAt, epoch ms (schema default: creation + 30 days) -/
  expiresAt : Int
  /-- embedded responses array -/
  responses : List DonorResponse
deriving DecidableEq, Repr

/-- emergencyRequestSchema.methods.isExpired
(models/EmergencyRequest.js lines 281-283): current time strictly after
medical.requiredBy, or strictly after expiresAt. -/
def isExpired (req : EmergencyRequestDoc) (now : Int) : Bool :=
  decide (now > req.requiredBy) || decide (now > req.expiresAt)

/-- emergencyRequestSchema.methods.isFulfilled
(models/EmergencyRequest.js lines 286-288). -/
def isFulfilled (unitsFulfilled unitsRequired : Nat) : Bool :=
  decide (unitsFulfilled ≥ unitsRequired)

/-! ### Donor respond endpoint (POST /emergency-requests/:id/respond) -/

/-- Domain errors of the donor respond endpoint, in the order the handler
checks them. validationFailed is the express-validator rejection of a
responseType outside [interested, confirmed]. -/
inductive RespondError
  | validationFailed
  | notEligible
  | notActive
  | expired
  | bloodGroupMismatch
deriving DecidableEq, Repr

/-- The donor respond endpoint (donor routes, POST
/emergency-requests/:id/respond): the express-validator isIn check on
responseType, then the canDonate guard, the active-status guard, the
isExpired guard and the blood group comparison, in source order; only when
all pass is addDonorResponse applied. The request document is returned
unchanged on every error path, since the handler returns before mutating. -/
def respondStep (req : EmergencyRequestDoc) (donor : User) (donorId : String)
    (ty : ResponseType) (sched : Option Int) (notes : Option String)
    (now : Int) (code : String) : Option RespondError × EmergencyRequestDoc :=
  if ¬(ty = ResponseType.interested ∨ ty = ResponseType.confirmed) then
    (some .validationFailed, req)
  else if !(canDonate donor now) then
    (some .notEligible, req)
  else if ¬(req.status = "active") then
    (some .notActive, req)
  else if isExpired req now then
    (some .expired, req)
  else if ¬(donor.bloodGroup = some req.patientBloodGroup) then
    (some .bloodGroupMismatch, req)
  else
    (none, { req with
      responses := addDonorResponse req.responses donorId ty now sched notes code })

/-! ### Donor selection (POST /emergency-requests/:id/select-donor) -/

/-- A DonationHistory record as created by the select-donor route,
restricted to the identifying fields (the remaining payload fields play no
part in the verified claims). -/
structure DonationRecord where
  donor : String
  recipient : String
  emergencyRequest : String
  scheduledDate : Int
  status : String
deriving DecidableEq, Repr

/-- Domain errors of the select-donor route, in check order. -/
inductive SelectError
  | donorNotResponded
  | donorNotEligible
deriving DecidableEq, Repr

/-- The select-donor route (routes/recipient.js lines 445-499), after the
ownership lookup found the request: reject when no response entry of the
donor exists, then reject when the donor lookup fails or canDonate is
false; otherwise create exactly one DonationHistory record with status
scheduled. The second component lists the DonationHistory records created
by the call (empty on every error path). -/
def selectDonorStep (req : EmergencyRequestDoc) (reqId : String)
    (donorId : String) (donorLookup : Option User) (recipientId : String)
    (scheduledDate now : Int) : Option SelectError × List DonationRecord :=
  if !(req.responses.any (fun r => r.donor == donorId)) then
    (some .donorNotResponded, [])
  else
    match donorLookup with
    | none => (some .donorNotEligible, [])
    | some donor =>
        if !(canDonate donor now) then
          (some .donorNotEligible, [])
        else
          (none, [{ donor := donorId, recipient := recipientId,
                    emergencyRequest := reqId, scheduledDate := scheduledDate,
                    status := "scheduled" }])

/-! ### Recipient status update (PUT /emergency-requests/:id/status) -/

/-- The status values the recipient status route validator accepts
(routes/recipient.js line 355). -/
def recipientStatusChoices : List String := ["active", "completed", "cancelled"]

/-- Errors of the recipient status update: the express-validator rejection,
and the Mongoose save-time enum validation of the status path. -/
inductive StatusUpdateError
  | validationFailed
  | saveValidationFailed
deriving DecidableEq, Repr

/-- The recipient status-update route (routes/recipient.js lines 354-392),
after the ownership lookup found the request: the validator admits
recipientStatusChoices, the handler assigns the given status and calls
save, and Mongoose save-time validation rejects any value outside the
schema enum requestStatusEnum, leaving the persisted document unchanged.
The returned document is the persisted state after the call. -/
def updateStatusStep (req : EmergencyRequestDoc) (newStatus : String) :
    Option StatusUpdateError × EmergencyRequestDoc :=
  if !(recipientStatusChoices.contains newStatus) then
    (some .validationFailed, req)
  else if !(requestStatusEnum.contains newStatus) then
    (some .saveValidationFailed, req)
  else
    (none, { req with status := newStatus })

/-! ### Reward points (models/DonationHistory.js) -/

/-- Donation types, from the donation.type schema enum
(models/DonationHistory.js lines 21-24). -/
inductive DonationType
  | blood | plasma | platelets | red_cells | white_cells
deriving DecidableEq, Repr

/-- Donation sources, from the metadata.source schema enum
(models/DonationHistory.js lines 262-266). -/
inductive DonationSource
  | emergency_request | walk_in | scheduled | camp
deriving DecidableEq, Repr

/-- The attributes of a DonationHistory document that
calculateRewardPoints reads. -/
structure DonationAttrs where
  dtype : DonationType
  units : Nat
  bloodGroup : BloodGroup
  source : DonationSource
deriving DecidableEq, Repr

/-- Rare blood groups per calculateRewardPoints
(models/DonationHistory.js line 328): [AB-, B-, A-, O-]. -/
def rareGroupsDonation : List BloodGroup := [.ABn, .Bn, .An, .On]

/-- donationHistorySchema.methods.calculateRewardPoints
(models/DonationHistory.js lines 317-336), as the sequential accumulation
of the source: base units*10, then the emergency, rarity and plasma
bonuses. -/
def calculateRewardPoints (d : DonationAttrs) : Nat :=
  let points := 0
  let points := points + d.units * 10
  let points := if d.source = DonationSource.emergency_request then points + 20 else points
  let points := if d.bloodGroup ∈ rareGroupsDonation then points + 15 else points
  let points := if d.dtype = DonationType.plasma then points + 5 else points
  points

/-! ### Notification targeting (POST /emergency-request) -/

/-- Matching the first (character-wise) characters of the needle against
the haystack, lower level of the regex containment check. -/
def matchesAtStart : List Char → List Char → Bool
  | [], _ => true
  | _ :: _, [] => false
  | a :: as, b :: bs => a == b && matchesAtStart as bs

/-- Containment of the needle anywhere in the haystack. -/
def matchesSomewhere : List Char → List Char → Bool
  | needle, [] => matchesAtStart needle []
  | needle, b :: bs => matchesAtStart needle (b :: bs) || matchesSomewhere needle bs

/-- The Mongo filter { field: { regex: pattern, case-insensitive } } used on
address.city: the city names occurring here are literal text, so the match
is case-insensitive containment of the pattern in the field value. -/
def cityRegexMatch (pattern target : String) : Bool :=
  matchesSomewhere (pattern.toList.map Char.toLower) (target.toList.map Char.toLower)

/-- The eligibleDonors query of the emergency-request route
(routes/recipient.js lines 210-216, identical shape in routes/emergency.js
lines 77-83): role donor, the document path admin.isApproved equal to
true (a Mongo equality match on a possibly absent path matches only when
the path is present with that value), availability.isAvailable true, exact
blood group match, and the case-insensitive city regex match. -/
def eligibleDonorQuery (bg : BloodGroup) (hospitalCity : String) (u : User) : Bool :=
  u.role == Role.donor &&
  u.adminIsApproved == some true &&
  u.isAvailable &&
  u.bloodGroup == some bg &&
  cityRegexMatch hospitalCity u.city

/-- Modelled from the spec wording of the matching predicate (claim C2):
a user with role donor, approval status approved (the approval field the
userSchema actually declares), availability flag true, blood group equal to
the patient blood group of the request, and city matching the hospital
city of the request. Stated separately from eligibleDonorQuery so the two
can be compared. -/
def specNotifyEligible (bg : BloodGroup) (hospitalCity : String) (u : User) : Bool :=
  u.role == Role.donor &&
  u.status == UserStatus.approved &&
  u.isAvailable &&
  u.bloodGroup == some bg &&
  cityRegexMatch hospitalCity u.city

/-! ### Demonstration documents used by concrete theorems -/

/-- A donor satisfying every spec-side eligibility condition: approved,
available, matching blood group and city, schema-conformant (hence no
admin.isApproved path). -/
def donorC2 : User :=
  { role := .donor, status := .approved, city := "Delhi", bloodGroup := some .On,
    lastDonationDate := none, isAvailable := true, adminIsApproved := none }

/-- An eligible donor used by the canDonate witness. -/
def donorC3 : User :=
  { role := .donor, status := .approved, city := "Kochi", bloodGroup := some .Ap,
    lastDonationDate := none, isAvailable := true, adminIsApproved := none }

/-- A cancelled (hence non-active) emergency request. -/
def reqC6 : EmergencyRequestDoc :=
  { status := "cancelled", patientBloodGroup := .On, hospitalCity := "Delhi",
    urgencyLevel := .critical, unitsRequired := 2, requiredBy := 1000, expiresAt := 2000,
    responses := [] }

/-- A donor used by the respond witnesses. -/
def donorC6 : User :=
  { role := .donor, status := .approved, city := "Delhi", bloodGroup := some .On,
    lastDonationDate := none, isAvailable := true, adminIsApproved := none }

/-- An active request holding one response, from donorB only. -/
def reqC7 : EmergencyRequestDoc :=
  { status := "active", patientBloodGroup := .Ap, hospitalCity := "Mumbai",
    urgencyLevel := .high, unitsRequired := 1, requiredBy := 1000, expiresAt := 2000,
    responses := [{ donor := "donorB", responseType := .interested, responseDate := 0,
                    scheduledTime := none, notes := none, verificationCode := "VCB" }] }

/-- An active request owned by the requesting recipient. -/
def reqC8 : EmergencyRequestDoc :=
  { status := "active", patientBloodGroup := .Bp, hospitalCity := "Chennai",
    urgencyLevel := .medium, unitsRequired := 3, requiredBy := 1000, expiresAt := 2000,
    responses := [] }

/-- An active, unexpired request used by the respond-types witness. -/
def reqC10 : EmergencyRequestDoc :=
  { status := "active", patientBloodGroup := .On, hospitalCity := "Delhi",
    urgencyLevel := .critical, unitsRequired := 2, requiredBy := 1000, expiresAt := 2000,
    responses := [] }

/-! ### Theorems -/

/-- C1: a request created with urgency critical, requiredBy 4 hours in the
future, 6 units required and blood group O- receives, from the pre-save
hook, a priority score of 40 + 30 + 20 + 10 = 100, which the Math.min
clamp leaves at the maximum of 100. -/
theorem c1_priority_score_concrete (now : Int) :
    presavePriorityScore UrgencyLevel.critical (now + 4 * msPerHour) now 6 BloodGroup.On = 100 ∧
    urgencyScore UrgencyLevel.critical = 40 ∧
    timeScore (now + 4 * msPerHour) now = 30 ∧
    unitsScore 6 = 20 ∧
    rarityScore BloodGroup.On = 10 := by
  have h : now + 4 * msPerHour - now ≤ 6 * msPerHour := by unfold msPerHour; omega
  have ht : timeScore (now + 4 * msPerHour) now = 30 := by
    unfold timeScore
    rw [if_pos h]
  refine ⟨?_, rfl, ht, rfl, rfl⟩
  unfold presavePriorityScore
  rw [ht]
  rfl

/-- C3: canDonate is false for every user whose last-donation date exists
with fewer than 56 whole days elapsed, true for an available donor with no
last-donation date, and false whenever the availability flag is off. -/
theorem c3_canDonate_spec (u : User) (now : Int) :
    (∀ last, u.lastDonationDate = some last →
        Int.fdiv (now - last) msPerDay < 56 → canDonate u now = false) ∧
    (u.role = Role.donor → u.isAvailable = true → u.lastDonationDate = none →
        canDonate u now = true) ∧
    (u.isAvailable = false → canDonate u now = false) := by
  refine ⟨?_, ?_, ?_⟩
  · intro last hlast hdays
    unfold canDonate
    rw [hlast]
    split
    · rfl
    · simp only [decide_eq_false_iff_not]
      exact not_le.mpr hdays
  · intro hrole havail hnone
    unfold canDonate
    rw [hnone]
    simp [hrole, havail]
  · intro havail
    unfold canDonate
    simp [havail]

/-- The in-place update leaves the donor id of every entry, and hence the
per-donor response counts, unchanged. -/
lemma updateExistingResponse_count (rs : List DonorResponse) (d : String)
    (ty : ResponseType) (t : Int) (s : Option Int) (n : Option String) (d' : String) :
    countDonorResponses (updateExistingResponse rs d ty t s n) d' =
      countDonorResponses rs d' := by
  induction rs with
  | nil => rfl
  | cons r0 rest ih =>
      unfold updateExistingResponse countDonorResponses
      split
      · simp only [List.countP_cons]
      · simp only [List.countP_cons]
        unfold countDonorResponses at ih
        omega

/-- After the in-place update, every entry of the updated donor carries the
new response type, provided the donor occurred at most once beforehand. -/
lemma updateExistingResponse_types (rs : List DonorResponse) (d : String)
    (ty : ResponseType) (t : Int) (s : Option Int) (n : Option String)
    (h : countDonorResponses rs d ≤ 1) :
    ∀ r ∈ updateExistingResponse rs d ty t s n, r.donor = d → r.responseType = ty := by
  induction rs with
  | nil => intro r hr; simp [updateExistingResponse] at hr
  | cons r0 rest ih =>
      intro r hr hrd
      unfold updateExistingResponse at hr
      by_cases h0 : r0.donor == d
      · rw [if_pos h0] at hr
        rcases List.mem_cons.mp hr with h1 | h1
        · subst h1; rfl
        · exfalso
          have hrest : countDonorResponses rest d = 0 := by
            unfold countDonorResponses at h ⊢
            simp only [List.countP_cons, h0, if_true] at h
            omega
          have hnot := (List.countP_eq_zero.mp hrest) r h1
          simp only [beq_iff_eq] at hnot
          exact hnot hrd
      · rw [if_neg h0] at hr
        rcases List.mem_cons.mp hr with h1 | h1
        · subst h1
          simp only [beq_iff_eq] at h0
          exact absurd hrd h0
        · refine ih ?_ r h1 hrd
          unfold countDonorResponses at h ⊢
          simp only [List.countP_cons, h0, if_false] at h
          omega

/-- The upsert of addDonorResponse: starting from an array in which the
donor appears at most once, afterwards the donor appears exactly once and
every entry of that donor carries the given response type. -/
lemma addDonorResponse_count_type (rs : List DonorResponse) (d : String)
    (ty : ResponseType) (t : Int) (s : Option Int) (n : Option String) (c : String)
    (h : countDonorResponses rs d ≤ 1) :
    countDonorResponses (addDonorResponse rs d ty t s n c) d = 1 ∧
    ∀ r ∈ addDonorResponse rs d ty t s n c, r.donor = d → r.responseType = ty := by
  unfold addDonorResponse
  by_cases hany : rs.any (fun r => r.donor == d)
  · rw [if_pos hany]
    constructor
    · rw [updateExistingResponse_count]
      have hpos : 0 < countDonorResponses rs d := by
        unfold countDonorResponses
        exact List.countP_pos_iff.mpr (by simpa [List.any_eq_true] using hany)
      omega
    · exact updateExistingResponse_types rs d ty t s n h
  · rw [if_neg hany]
    have hfalse : rs.any (fun r => r.donor == d) = false := by
      cases hb : rs.any (fun r => r.donor == d)
      · rfl
      · exact absurd hb hany
    have hzero : countDonorResponses rs d = 0 := by
      unfold countDonorResponses
      apply List.countP_eq_zero.mpr
      intro a ha
      exact (List.any_eq_false.mp hfalse) a ha
    constructor
    · unfold countDonorResponses at hzero ⊢
      rw [List.countP_append, hzero]
      simp
    · intro r hr hrd
      rcases List.mem_append.mp hr with h1 | h1
      · exfalso
        have hnot := (List.countP_eq_zero.mp hzero) r h1
        simp only [beq_iff_eq] at hnot
        exact hnot hrd
      · simp only [List.mem_singleton] at h1
        subst h1
        rfl

/-- C4: calling addDonorResponse twice for the same donor with different
response types leaves exactly one response entry of that donor, whose type
is the one of the latest call, provided the array satisfied the
one-entry-per-donor invariant beforehand (the invariant the upsert itself
maintains; in particular it holds for any array built by addDonorResponse). -/
theorem c4_addDonorResponse_upsert (rs : List DonorResponse) (d : String)
    (ty₁ ty₂ : ResponseType) (t₁ t₂ : Int) (s₁ s₂ : Option Int)
    (n₁ n₂ : Option String) (c₁ c₂ : String)
    (hinv : countDonorResponses rs d ≤ 1) (_hne : ty₁ ≠ ty₂) :
    countDonorResponses
      (addDonorResponse (addDonorResponse rs d ty₁ t₁ s₁ n₁ c₁) d ty₂ t₂ s₂ n₂ c₂) d = 1 ∧
    ∀ r ∈ addDonorResponse (addDonorResponse rs d ty₁ t₁ s₁ n₁ c₁) d ty₂ t₂ s₂ n₂ c₂,
      r.donor = d → r.responseType = ty₂ := by
  have h1 := addDonorResponse_count_type rs d ty₁ t₁ s₁ n₁ c₁ hinv
  exact addDonorResponse_count_type _ d ty₂ t₂ s₂ n₂ c₂ (le_of_eq h1.1)

/-- Witness for C4: the spec scenario of an interested-then-confirmed
response on a fresh request. -/
theorem c4_addDonorResponse_upsert_witness :
    countDonorResponses
      (addDonorResponse (addDonorResponse [] "donorA" ResponseType.interested 0 none none "VC1")
        "donorA" ResponseType.confirmed 1 none none "VC2") "donorA" = 1 ∧
    ∀ r ∈ addDonorResponse
        (addDonorResponse [] "donorA" ResponseType.interested 0 none none "VC1")
        "donorA" ResponseType.confirmed 1 none none "VC2",
      r.donor = "donorA" → r.responseType = ResponseType.confirmed :=
  c4_addDonorResponse_upsert [] "donorA" ResponseType.interested ResponseType.confirmed
    0 1 none none none none "VC1" "VC2" (by decide) (by decide)

/-- Witness for C3: an available donor with no donation history may donate;
the same donor with the availability flag off may not; a donor who last
donated 40 days ago may not. -/
theorem c3_canDonate_spec_witness :
    canDonate donorC3 0 = true ∧
    canDonate { donorC3 with isAvailable := false } 0 = false ∧
    canDonate { donorC3 with lastDonationDate := some 0 } (40 * msPerDay) = false :=
  ⟨(c3_canDonate_spec donorC3 0).2.1 rfl rfl rfl,
   (c3_canDonate_spec { donorC3 with isAvailable := false } 0).2.2 rfl,
   (c3_canDonate_spec { donorC3 with lastDonationDate := some 0 } (40 * msPerDay)).1
      0 rfl (by decide)⟩

/-- C5: with the other inputs fixed, both scorers are monotonically
non-decreasing as urgency increases along low < medium < high < critical,
and each result (a natural number, hence at least 0) is clamped below its
cap (100 for the persisted pre-save score, 150 for the route helper). -/
theorem c5_priority_monotone_bounded :
    (∀ u₁ u₂ requiredBy now units bg, urgencyRank u₁ ≤ urgencyRank u₂ →
      presavePriorityScore u₁ requiredBy now units bg ≤
        presavePriorityScore u₂ requiredBy now units bg ∧
      calculatePriorityScore u₁ requiredBy now ≤ calculatePriorityScore u₂ requiredBy now) ∧
    (∀ u requiredBy now units bg,
      presavePriorityScore u requiredBy now units bg ≤ 100 ∧
      calculatePriorityScore u requiredBy now ≤ 150) := by
  constructor
  · intro u₁ u₂ requiredBy now units bg h
    have h1 : urgencyScore u₁ ≤ urgencyScore u₂ := by
      revert h; cases u₁ <;> cases u₂ <;> decide
    have h2 : routeUrgencyBase u₁ ≤ routeUrgencyBase u₂ := by
      revert h; cases u₁ <;> cases u₂ <;> decide
    constructor
    · unfold presavePriorityScore
      exact min_le_min (by omega) le_rfl
    · unfold calculatePriorityScore
      exact min_le_min (by omega) le_rfl
  · intro u requiredBy now units bg
    unfold presavePriorityScore calculatePriorityScore
    exact ⟨min_le_right _ _, min_le_right _ _⟩

/-- Witness for C5 at a concrete input. -/
theorem c5_priority_monotone_bounded_witness :
    (presavePriorityScore UrgencyLevel.low 0 0 1 BloodGroup.Ap ≤
      presavePriorityScore UrgencyLevel.critical 0 0 1 BloodGroup.Ap) ∧
    presavePriorityScore UrgencyLevel.critical 0 0 1 BloodGroup.Ap ≤ 100 :=
  ⟨(c5_priority_monotone_bounded.1 UrgencyLevel.low UrgencyLevel.critical 0 0 1
      BloodGroup.Ap (by decide)).1,
   (c5_priority_monotone_bounded.2 UrgencyLevel.critical 0 0 1 BloodGroup.Ap).1⟩

/-- C6: a donor response on a request that is not active, or whose deadline
or absolute expiration timestamp has passed, is rejected with a domain
error and the responses array of the request is left unchanged. -/
theorem c6_respond_rejected_inactive_or_expired (req : EmergencyRequestDoc) (donor : User)
    (donorId : String) (ty : ResponseType) (sched : Option Int) (notes : Option String)
    (now : Int) (code : String)
    (h : req.status ≠ "active" ∨ now > req.requiredBy ∨ now > req.expiresAt) :
    (respondStep req donor donorId ty sched notes now code).1.isSome = true ∧
    (respondStep req donor donorId ty sched notes now code).2 = req := by
  unfold respondStep
  split
  · exact ⟨rfl, rfl⟩
  · split
    · exact ⟨rfl, rfl⟩
    · split
      · exact ⟨rfl, rfl⟩
      · split
        · exact ⟨rfl, rfl⟩
        · split
          · exact ⟨rfl, rfl⟩
          · rename_i h1 h2 h3 h4 h5
            exfalso
            rcases h with hs | hr | he
            · exact hs (not_not.mp h3)
            · simp only [isExpired, Bool.or_eq_true, decide_eq_true_eq, not_or] at h4
              exact h4.1 hr
            · simp only [isExpired, Bool.or_eq_true, decide_eq_true_eq, not_or] at h4
              exact h4.2 he

/-- Witness for C6: responding to a cancelled request is rejected with the
document unchanged. -/
theorem c6_respond_rejected_witness :
    (respondStep reqC6 donorC6 "d1" ResponseType.interested none none 0 "VC").1.isSome = true ∧
    (respondStep reqC6 donorC6 "d1" ResponseType.interested none none 0 "VC").2 = reqC6 :=
  c6_respond_rejected_inactive_or_expired reqC6 donorC6 "d1" ResponseType.interested
    none none 0 "VC" (Or.inl (by decide))

/-- Every entry of the upserted array either carries the upserted type or
was already present. -/
lemma updateExistingResponse_mem (rs : List DonorResponse) (d : String)
    (ty : ResponseType) (t : Int) (s : Option Int) (n : Option String) :
    ∀ r ∈ updateExistingResponse rs d ty t s n, r.responseType = ty ∨ r ∈ rs := by
  induction rs with
  | nil => intro r hr; simp [updateExistingResponse] at hr
  | cons r0 rest ih =>
      intro r hr
      unfold updateExistingResponse at hr
      split at hr
      · rcases List.mem_cons.mp hr with h1 | h1
        · subst h1; exact Or.inl rfl
        · exact Or.inr (List.mem_cons_of_mem _ h1)
      · rcases List.mem_cons.mp hr with h1 | h1
        · subst h1; exact Or.inr (List.mem_cons_self _ _)
        · rcases ih r h1 with h2 | h2
          · exact Or.inl h2
          · exact Or.inr (List.mem_cons_of_mem _ h2)

/-- Every entry after addDonorResponse either carries the added type or was
already in the array. -/
lemma addDonorResponse_mem (rs : List DonorResponse) (d : String) (ty : ResponseType)
    (t : Int) (s : Option Int) (n : Option String) (c : String) :
    ∀ r ∈ addDonorResponse rs d ty t s n c, r.responseType = ty ∨ r ∈ rs := by
  unfold addDonorResponse
  split
  · exact updateExistingResponse_mem rs d ty t s n
  · intro r hr
    rcases List.mem_append.mp hr with h1 | h1
    · exact Or.inr h1
    · simp only [List.mem_singleton] at h1
      subst h1
      exact Or.inl rfl

/-- C10: the respond endpoint rejects the response types completed and
cancelled outright, and consequently preserves the invariant that every
recorded response entry has type interested or confirmed. -/
theorem c10_respond_response_types (req : EmergencyRequestDoc) (donor : User)
    (donorId : String) (ty : ResponseType) (sched : Option Int) (notes : Option String)
    (now : Int) (code : String) :
    ((ty = ResponseType.completed ∨ ty = ResponseType.cancelled) →
      respondStep req donor donorId ty sched notes now code =
        (some RespondError.validationFailed, req)) ∧
    ((∀ r ∈ req.responses,
        r.responseType = ResponseType.interested ∨ r.responseType = ResponseType.confirmed) →
      ∀ r ∈ (respondStep req donor donorId ty sched notes now code).2.responses,
        r.responseType = ResponseType.interested ∨ r.responseType = ResponseType.confirmed) := by
  constructor
  · intro h
    rcases h with h | h <;> subst h <;> rfl
  · intro hall r hr
    unfold respondStep at hr
    split at hr
    · exact hall r hr
    · split at hr
      · exact hall r hr
      · split at hr
        · exact hall r hr
        · split at hr
          · exact hall r hr
          · split at hr
            · exact hall r hr
            · rename_i h1 h2 h3 h4 h5
              rcases addDonorResponse_mem req.responses donorId ty now sched notes code r hr
                with hh | hh
              · rcases not_not.mp h1 with h' | h'
                · exact Or.inl (by rw [hh, h'])
                · exact Or.inr (by rw [hh, h'])
              · exact hall r hh

/-- Witness for C10: a confirmed response on an active request keeps every
entry of the result within the two reachable types, and a completed
response is rejected by validation. -/
theorem c10_respond_response_types_witness :
    (respondStep reqC10 donorC6 "d1" ResponseType.completed none none 0 "VC") =
      (some RespondError.validationFailed, reqC10) ∧
    ∀ r ∈ (respondStep reqC10 donorC6 "d1" ResponseType.confirmed none none 0 "VC").2.responses,
      r.responseType = ResponseType.interested ∨ r.responseType = ResponseType.confirmed :=
  ⟨(c10_respond_response_types reqC10 donorC6 "d1" ResponseType.completed none none 0 "VC").1
      (Or.inl rfl),
   (c10_respond_response_types reqC10 donorC6 "d1" ResponseType.confirmed none none 0 "VC").2
      (by decide)⟩

/-- C7: selecting a donor who never responded to the request is rejected
with the domain error donorNotResponded, and the failing call creates no
DonationHistory record. -/
theorem c7_select_donor_not_responded (req : EmergencyRequestDoc) (reqId donorId : String)
    (donorLookup : Option User) (recipientId : String) (scheduledDate now : Int)
    (h : ∀ r ∈ req.responses, r.donor ≠ donorId) :
    selectDonorStep req reqId donorId donorLookup recipientId scheduledDate now =
      (some SelectError.donorNotResponded, []) := by
  unfold selectDonorStep
  have hfalse : req.responses.any (fun r => r.donor == donorId) = false := by
    apply List.any_eq_false.mpr
    intro a ha
    simp only [beq_iff_eq]
    exact h a ha
  rw [hfalse]
  rfl

/-- Witness for C7: selecting donorX on a request answered only by donorB. -/
theorem c7_select_donor_not_responded_witness :
    selectDonorStep reqC7 "req1" "donorX" none "recip1" 0 0 =
      (some SelectError.donorNotResponded, []) :=
  c7_select_donor_not_responded reqC7 "req1" "donorX" none "recip1" 0 0 (by decide)

/-- Every stored user lacking the admin.isApproved path is excluded by the
notification query, whatever its approval status. -/
lemma eligibleDonorQuery_needs_adminIsApproved (bg : BloodGroup) (city : String)
    (u : User) (h : u.adminIsApproved = none) :
    eligibleDonorQuery bg city u = false := by
  unfold eligibleDonorQuery
  rw [h]
  simp

/-- C2 (refutation): the donor donorC2 satisfies the spec matching
predicate (approved status, available, equal blood group, matching city)
and is schema-conformant, yet the eligibleDonors query selects nobody,
because it filters on the document path admin.isApproved that the
userSchema never declares. -/
theorem c2_notification_targets_bug :
    specNotifyEligible BloodGroup.On "Delhi" donorC2 = true ∧
    donorC2.adminIsApproved = none ∧
    eligibleDonorQuery BloodGroup.On "Delhi" donorC2 = false := by
  refine ⟨rfl, rfl, ?_⟩
  exact eligibleDonorQuery_needs_adminIsApproved BloodGroup.On "Delhi" donorC2 rfl

/-- C8 (refutation): the recipient status route persists the value
cancelled, but the value completed, although accepted by the route
validator, fails the Mongoose enum validation of the status path at save
time, so nothing is persisted and the caller receives an error. -/
theorem c8_update_status_completed_bug :
    updateStatusStep reqC8 "cancelled" = (none, { reqC8 with status := "cancelled" }) ∧
    updateStatusStep reqC8 "completed" = (some StatusUpdateError.saveValidationFailed, reqC8) ∧
    recipientStatusChoices.contains "completed" = true ∧
    requestStatusEnum.contains "completed" = false := by
  exact ⟨rfl, rfl, rfl, rfl⟩

/-- C9: the reward points of a donation are units*10, plus 20 when sourced
from an emergency request, plus 15 when the blood group is rare, plus 5
for plasma; being a pure function of the DonationAttrs, the value is
recomputable on demand from the donation attributes alone. -/
theorem c9_reward_points_formula (d : DonationAttrs) :
    calculateRewardPoints d =
      d.units * 10 +
      (if d.source = DonationSource.emergency_request then 20 else 0) +
      (if d.bloodGroup ∈ rareGroupsDonation then 15 else 0) +
      (if d.dtype = DonationType.plasma then 5 else 0) := by
  simp only [calculateRewardPoints]
  split_ifs <;> omega

end BloodFinder
